import Mathlib

/-!
Shallow embedding of the document-to-outline desktop utility (`main.py`) and
proofs about its extraction, prompt-building, generation, chat and
browser-automation fallback behaviour.

Modelling conventions:
* Python strings are modelled as `List Char`; Python byte strings as `List Nat`
  (one `Nat` per byte, each below 256).
* `str.strip()` is `pyStrip`, `in` (substring test) is `pyIn`,
  `str.lower()` is `pyLower`, slicing `s[:n]` is `List.take n`.
* File reads with `encoding='utf-8', errors='ignore'` are modelled by a real
  UTF-8 decoder (`utf8DecodeIgnore`) that drops undecodable bytes and reports
  whether any byte was undecodable; `pyOpenRead` turns that into the
  raise/no-raise behaviour selected by the `errors` mode.
* Network calls are modelled by an oracle holding the provider's single reply;
  the HTTP request actually issued is returned as data so that "exactly one
  POST with this payload" is a provable statement.
* Each Python `except` path is an explicit constructor of the result type, so
  "no unhandled failure" corresponds to totality of the embedded function.
-/

/-! ## Python string primitives -/

/-- Python whitespace predicate used by `str.strip()`. -/
def pyWS (c : Char) : Bool := c.isWhitespace

/-- Python `str.strip()`: drop whitespace from both ends. -/
def pyStrip (l : List Char) : List Char :=
  (l.dropWhile pyWS).rdropWhile pyWS

/-- Python `str.lower()` (per-character lowering). -/
def pyLower (l : List Char) : List Char := l.map Char.toLower

/-- Python substring test `pat in s`. -/
def pyIn (pat s : List Char) : Bool :=
  s.tails.any (fun t => pat.isPrefixOf t)

/-! ## UTF-8 decoding with `errors='ignore'`

`leadStep` classifies a byte in initial position: an ASCII character, the lead
byte of a 2-, 3- or 4-byte sequence (returning the expected number of
continuation bytes, the seeded accumulator and the smallest code point the
sequence may legally produce), or an invalid byte.  `utf8DecodeIgnore` runs the
resulting state machine over the byte list, skipping undecodable input and
recording whether any byte had to be skipped. -/

/-- Is `b` a UTF-8 continuation byte (`0x80 ≤ b < 0xC0`)? -/
def isContByte (b : Nat) : Bool := decide (0x80 ≤ b) && decide (b < 0xC0)

/-- Decoder state while inside a multi-byte sequence:
continuation bytes still expected, accumulated value, minimal legal value. -/
structure Utf8Pending where
  need : Nat
  acc : Nat
  lo : Nat
deriving DecidableEq

/-- Classify a byte in initial position: `(emitted ASCII char, new pending
state, invalid?)`. -/
def leadStep (b : Nat) : Option Char × Option Utf8Pending × Bool :=
  if b < 0x80 then (some (Char.ofNat b), none, false)
  else if decide (0xC2 ≤ b) && decide (b ≤ 0xDF) then (none, some ⟨1, b - 0xC0, 0x80⟩, false)
  else if decide (0xE0 ≤ b) && decide (b ≤ 0xEF) then (none, some ⟨2, b - 0xE0, 0x800⟩, false)
  else if decide (0xF0 ≤ b) && decide (b ≤ 0xF4) then (none, some ⟨3, b - 0xF0, 0x10000⟩, false)
  else (none, none, true)

/-- Is `n` a scalar value a `Char` may hold? -/
def validScalar (lo n : Nat) : Bool :=
  decide (lo ≤ n) && (decide (n < 0xD800) || (decide (0xDFFF < n) && decide (n < 0x110000)))

/-- Run the UTF-8 decoder over `l`, starting in state `st`.  Returns the
decoded characters with undecodable bytes skipped, and whether any byte was
skipped (i.e. whether a strict decode would have raised `UnicodeDecodeError`). -/
def utf8Run (st : Option Utf8Pending) : List Nat → List Char × Bool
  | [] => ([], st.isSome)
  | b :: rest =>
    match st with
    | some ⟨need, acc, lo⟩ =>
      if isContByte b then
        let acc2 := acc * 64 + (b - 0x80)
        if need ≤ 1 then
          if validScalar lo acc2 then
            let r := utf8Run none rest
            (Char.ofNat acc2 :: r.1, r.2)
          else
            let r := utf8Run none rest
            (r.1, true)
        else
          utf8Run (some ⟨need - 1, acc2, lo⟩) rest
      else
        -- broken sequence: record the error, reprocess `b` in initial position
        let s := leadStep b
        let r := utf8Run s.2.1 rest
        ((match s.1 with | some c => c :: r.1 | none => r.1), true)
    | none =>
      let s := leadStep b
      let r := utf8Run s.2.1 rest
      ((match s.1 with | some c => c :: r.1 | none => r.1), s.2.2 || r.2)

/-- Decode `bytes` as UTF-8, dropping undecodable bytes; also report whether
anything was dropped. -/
def utf8DecodeIgnore (bytes : List Nat) : List Char × Bool :=
  utf8Run none bytes

/-! ## The text extractor (`extract_file_content`) -/

/-- Python exceptions that can cross `extract_file_content`'s boundary. -/
inductive PyExc where
  /-- `UnicodeDecodeError` raised by a strict text decode. -/
  | unicodeDecodeError
  /-- `ImportError`: the `python-docx` reader is not installed. -/
  | importErrorDocx
  /-- `ImportError`: the `PyPDF2` reader is not installed. -/
  | importErrorPdf
  /-- `ValueError("文件内容为空或无法提取文本")`: empty after stripping. -/
  | valueErrorEmpty
deriving DecidableEq

/-- `open(path, 'r', encoding='utf-8', errors=...).read()`.  With
`ignoreErrors = true` (the mode `extract_file_content` always uses) the read
cannot raise; with strict errors it raises iff a byte is undecodable. -/
def pyOpenRead (bytes : List Nat) (ignoreErrors : Bool) : Except PyExc (List Char) :=
  let r := utf8DecodeIgnore bytes
  if ignoreErrors then .ok r.1
  else if r.2 then .error .unicodeDecodeError
  else .ok r.1

/-- Inputs of one `extract_file_content` call: the file's extension and raw
bytes, availability of the two optional format readers and the text those
readers would produce, and the (opaque) GBK decoder used by the
`except UnicodeDecodeError` fallback — like the UTF-8 read it is invoked with
`errors='ignore'`, hence total. -/
structure ExtractEnv where
  ext : List Char
  bytes : List Nat
  docxAvailable : Bool
  docxParas : List (List Char)
  pdfAvailable : Bool
  pdfPages : List (List Char)
  gbkDecodeIgnore : List Nat → List Char

/-- The `try:` body of `extract_file_content`: dispatch on the lower-cased
extension. -/
def extract_dispatch (env : ExtractEnv) : Except PyExc (List Char) :=
  let ext := pyLower env.ext
  if ext = ".txt".data ∨ ext = ".md".data then
    pyOpenRead env.bytes true
  else if ext = ".docx".data then
    if env.docxAvailable then .ok (List.intercalate "\n".data env.docxParas)
    else .error .importErrorDocx
  else if ext = ".pdf".data then
    if env.pdfAvailable then
      .ok (env.pdfPages.foldl (fun acc page => acc ++ page ++ "\n".data) [])
    else .error .importErrorPdf
  else
    -- 其他格式尝试作为纯文本读取
    pyOpenRead env.bytes true

/-- `extract_file_content`: dispatch, the `except UnicodeDecodeError` GBK
fallback, then the empty-after-strip check. -/
def extract_file_content (env : ExtractEnv) : Except PyExc (List Char) :=
  let afterHandler : Except PyExc (List Char) :=
    match extract_dispatch env with
    | .error .unicodeDecodeError => .ok (env.gbkDecodeIgnore env.bytes)
    | r => r
  match afterHandler with
  | .error e => .error e
  | .ok content =>
    if pyStrip content = [] then .error .valueErrorEmpty
    else .ok (pyStrip content)

/-! ## Prompt builders (`generate_content` / `process_question` f-strings) -/

/-- The mind-map outline prompt (f-string at the `思维导图` branch of
`generate_content`); `depth` is the parsed `思维导图层级`. -/
def mindmap_prompt (file_ext : List Char) (depth : Nat) (language content : List Char) :
    List Char :=
  "请将以下`".data ++ file_ext ++
  "`文件的内容，分析并整理成一个层次清晰、逻辑完整的思维导图大纲。\n**要求:**\n1. 输出严格的 Markdown 格式，使用 `#` 表示一级主题，`##` 表示二级主题，依此类推。\n2. 总共设计大约 ".data ++
  (Nat.repr depth).data ++
  " 个层级。\n3. 大纲语言使用".data ++ language ++
  "。\n4. 从文件中提炼核心主题、关键概念、重要论点和支撑细节。\n5. 结构要符合思维导图的放射性特点，不要写成纯列表。\n6. 只输出Markdown内容，不要有任何解释性前缀或后缀。\n**文件内容摘要 (前500字符):**\n".data ++
  content.take 500 ++ "...".data ++
  "\n**请开始输出Markdown格式的思维导图大纲:**".data

/-- The PPT outline prompt (f-string at the `PPT大纲` branch of
`generate_content`); `pages_range` is e.g. `10-15`. -/
def ppt_prompt (file_ext pages_range language content : List Char) : List Char :=
  "请将以下`".data ++ file_ext ++
  "`文件的内容，分析并整理成一个适合制作PPT演示文稿的详细大纲。\n**要求:**\n1. 输出严格的 Markdown 格式。\n2. 设计一个完整的PPT结构，包含封面页、目录页、内容页和结束页。\n3. 内容页数量控制在".data ++
  pages_range ++
  "页左右。\n4. 每页PPT使用`##`作为标题，然后列出该页的要点内容。\n5. 每个要点使用`-`或`*`符号表示。\n6. 大纲语言使用".data ++
  language ++
  "。\n7. 从文件中提炼核心内容，确保逻辑连贯、重点突出。\n8. 只输出Markdown内容，不要有任何解释性前缀或后缀。\n**建议PPT结构示例:**\n## 封面页\n- 主标题: [根据内容拟定]\n- 副标题: [可选]\n- 演讲者/日期: [可选]\n## 目录页\n1. 主要内容一\n2. 主要内容二\n3. 主要内容三\n## 内容页1: [具体标题]\n- 要点1\n- 要点2\n- 要点3\n## 内容页2: [具体标题]\n- 要点1\n- 要点2\n## 结束页\n- 总结/致谢/联系方式\n**文件内容摘要 (前500字符):**\n".data ++
  content.take 500 ++ "...".data ++
  "\n**请开始输出Markdown格式的PPT大纲:**".data

/-- The question-answering prompt (f-string in `process_question`).  Unlike the
two outline prompts, its ellipsis is conditional on actual truncation. -/
def qa_prompt (content question : List Char) : List Char :=
  "请基于以下文件内容回答用户的问题。如果问题与文件内容无关，请礼貌地说明。\n文件内容摘要（前1500字符）:\n".data ++
  content.take 1500 ++
  (if 1500 < content.length then "...".data else []) ++
  "\n用户问题: ".data ++ question ++
  "\n请提供准确、简洁的回答，并尽可能引用文件中的具体内容。".data

/-- Output kind selected in the UI (`输出类型`). -/
inductive OutputType where
  | mindmap
  | ppt
deriving DecidableEq

/-- Rendered name of the output kind, as interpolated into the system prompt. -/
def outputTypeName : OutputType → List Char
  | .mindmap => "思维导图".data
  | .ppt => "PPT大纲".data

/-- System prompt of the generation pipeline. -/
def gen_system_prompt (t : OutputType) : List Char :=
  "你是一个专业的".data ++ outputTypeName t ++
  "设计师，擅长将复杂信息转化为清晰的结构化大纲。".data

/-- System prompt of the chat pipeline. -/
def chat_system_prompt : List Char :=
  "你是一个专业的文档分析师，擅长基于文档内容回答用户问题。".data

/-! ## Provider clients -/

/-- The two selectable chat-completion backends. -/
inductive AIModel where
  | deepseek
  | kimi
deriving DecidableEq

/-- The model name as shown in the UI and interpolated into messages. -/
def modelName : AIModel → List Char
  | .deepseek => "DeepSeek".data
  | .kimi => "Kimi".data

/-- A JSON value, for the raw-HTTP (Kimi) request body and response. -/
inductive JVal where
  | s (v : List Char)
  | n (v : ℚ)
  | b (v : Bool)
  | arr (v : List JVal)
  | obj (v : List (List Char × JVal))

/-- Look a key up in a JSON object's field list (first match). -/
def jlookup (fields : List (List Char × JVal)) (k : List Char) : Option JVal :=
  (fields.find? (fun p => decide (p.1 = k))).map (fun p => p.2)

/-- The field names of a JSON object (empty for non-objects). -/
def jkeys : JVal → List (List Char)
  | .obj fields => fields.map (fun p => p.1)
  | _ => []

/-- `result["choices"][0]["message"]["content"]` — how both call sites read the
answer out of the Kimi response JSON.  `none` models the `KeyError` /
`IndexError` that the surrounding generic `except` would catch. -/
def parse_kimi_response (j : JVal) : Option (List Char) :=
  match j with
  | .obj fields =>
    match jlookup fields "choices".data with
    | some (.arr (first :: _)) =>
      match first with
      | .obj f2 =>
        match jlookup f2 "message".data with
        | some (.obj f3) =>
          match jlookup f3 "content".data with
          | some (.s v) => some v
          | _ => none
        | _ => none
      | _ => none
    | _ => none
  | _ => none

/-- An outbound HTTP request as issued by `requests.post(...)`. -/
structure HttpRequest where
  method : List Char
  url : List Char
  headers : List (List Char × List Char)
  body : JVal
  timeoutSeconds : Nat

/-- `self.kimi_api_url` — the fixed raw-HTTP endpoint. -/
def kimi_api_url : List Char := "https://api.moonshot.cn/v1/chat/completions".data

/-- The single `requests.post` call of the Kimi branches: JSON body with
exactly the fields `model`, `messages`, `max_tokens`, `temperature`,
`stream:false`, a bearer `Authorization` header, fixed endpoint, 60 s timeout.
`generate_content` passes `max_tokens = 2000`, `process_question` `1000`. -/
def kimi_chat_request (apiKey sysPrompt userPrompt : List Char) (maxTokens : Nat) :
    HttpRequest where
  method := "POST".data
  url := kimi_api_url
  headers :=
    [("Content-Type".data, "application/json".data),
     ("Authorization".data, "Bearer ".data ++ apiKey)]
  body :=
    .obj
      [("model".data, .s "moonshot-v1-8k".data),
       ("messages".data,
        .arr
          [.obj [("role".data, .s "system".data), ("content".data, .s sysPrompt)],
           .obj [("role".data, .s "user".data), ("content".data, .s userPrompt)]]),
       ("max_tokens".data, .n maxTokens),
       ("temperature".data, .n (7 / 10 : ℚ)),
       ("stream".data, .b false)]
  timeoutSeconds := 60

/-- Failure of one raw-HTTP call, as distinguished by the `except` clauses
(`requests.exceptions.Timeout`, `requests.exceptions.RequestException`, and
anything else, e.g. a non-JSON body). -/
inductive KimiErr where
  | timeout
  | requestErr (msg : List Char)
  | otherErr (msg : List Char)
deriving DecidableEq

/-- The single network interaction of one pipeline call: what the DeepSeek SDK
call would return (`choices[0].message.content`, or the message of the raised
SDK exception), and what the Kimi raw-HTTP call would return (response JSON or
a transport failure). -/
structure Oracle where
  deepseek : Except (List Char) (List Char)
  kimi : Except KimiErr JVal

/-! ## Generation pipeline (`generate_content`) -/

/-- The session state touched by `generate_content`: the loaded document and
the current artifact (`self.generated_markdown`). -/
structure GenSession where
  current_file_content : List Char
  generated_markdown : List Char
deriving DecidableEq

/-- Configuration read by one `generate_content` call: UI selections, file
extension of the loaded file, and startup-resolved credentials.
`depth` is the integer already parsed out of the `思维导图层级` combobox
(`int(var.split()[0])`, defaulting to 3). -/
structure GenConfig where
  output_type : OutputType
  language : List Char
  ai_model : AIModel
  depth : Nat
  ppt_pages : List Char
  file_ext : List Char
  deepseek_env_key : Bool
  deepseek_client : Bool
  kimi_api_key : Option (List Char)

/-- The user prompt built by `generate_content` for the selected output type. -/
def gen_user_prompt (cfg : GenConfig) (content : List Char) : List Char :=
  match cfg.output_type with
  | .mindmap => mindmap_prompt cfg.file_ext cfg.depth cfg.language content
  | .ppt => ppt_prompt cfg.file_ext cfg.ppt_pages cfg.language content

/-- How one `generate_content` call ends (each constructor is one `return` /
`except` path of the Python function). -/
inductive GenOutcome where
  /-- `messagebox.showwarning("警告", "请先选择有效的文件")` then return. -/
  | warnNoFile
  /-- `messagebox.showerror`: DeepSeek key missing or client init failed. -/
  | errNoDeepseekKey
  /-- `messagebox.showerror`: `KIMI_API_KEY` not set. -/
  | errNoKimiKey
  /-- Generation succeeded; artifact replaced. -/
  | success
  /-- `except requests.exceptions.Timeout`. -/
  | failTimeout
  /-- `except requests.exceptions.RequestException`. -/
  | failRequest (msg : List Char)
  /-- Generic `except Exception` (SDK errors, response-shape errors, ...). -/
  | failOther (msg : List Char)
deriving DecidableEq

/-- Result of one `generate_content` call: the session afterwards, the outcome,
whether a provider was actually called, and the raw HTTP requests issued. -/
structure GenStep where
  session : GenSession
  outcome : GenOutcome
  providerCalled : Bool
  httpRequests : List HttpRequest

/-- `generate_content`: validate document and credential, build the prompt,
make the single provider call, strip and store the result.  The provider's
reply is supplied by `oracle`. -/
def generate_content (st : GenSession) (cfg : GenConfig) (oracle : Oracle) : GenStep :=
  if st.current_file_content = [] then
    ⟨st, .warnNoFile, false, []⟩
  else if cfg.ai_model = .deepseek ∧ (cfg.deepseek_env_key = false ∨ cfg.deepseek_client = false) then
    ⟨st, .errNoDeepseekKey, false, []⟩
  else if cfg.ai_model = .kimi ∧ cfg.kimi_api_key = none then
    ⟨st, .errNoKimiKey, false, []⟩
  else
    let prompt := gen_user_prompt cfg st.current_file_content
    let sys := gen_system_prompt cfg.output_type
    match cfg.ai_model with
    | .deepseek =>
      match oracle.deepseek with
      | .ok out => ⟨{ st with generated_markdown := pyStrip out }, .success, true, []⟩
      | .error msg =>
        ⟨st, .failOther (modelName .deepseek ++ "调用失败: ".data ++ msg), true, []⟩
    | .kimi =>
      let key := cfg.kimi_api_key.getD []
      let req := kimi_chat_request key sys prompt 2000
      match oracle.kimi with
      | .ok j =>
        match parse_kimi_response j with
        | some out => ⟨{ st with generated_markdown := pyStrip out }, .success, true, [req]⟩
        | none => ⟨st, .failOther (modelName .kimi ++ "调用失败: KeyError".data), true, [req]⟩
      | .error .timeout => ⟨st, .failTimeout, true, [req]⟩
      | .error (.requestErr m) =>
        ⟨st, .failRequest (modelName .kimi ++ " API请求失败: ".data ++ m), true, [req]⟩
      | .error (.otherErr m) =>
        ⟨st, .failOther (modelName .kimi ++ "调用失败: ".data ++ m), true, [req]⟩

/-! ## Chat pipeline (`process_question` / `display_answer`) -/

/-- One entry of `self.conversation_history`. -/
structure ChatTurn where
  sender : List Char
  message : List Char
  timestamp : List Char
deriving DecidableEq

/-- `add_to_chat_history`: append one turn (never mutates earlier turns). -/
def add_to_chat_history (hist : List ChatTurn) (now sender message : List Char) :
    List ChatTurn :=
  hist ++ [⟨sender, message, now⟩]

/-- `display_answer`: classify the outcome by substring match on the message
text and append it as a `系统` (system) or `〈model〉助手` (assistant) turn. -/
def display_answer (hist : List ChatTurn) (now answer : List Char) (ai_model : AIModel) :
    List ChatTurn :=
  if pyIn "API调用超时".data answer || pyIn "API请求失败".data answer ||
      pyIn "回答失败".data answer then
    add_to_chat_history hist now "系统".data answer
  else
    add_to_chat_history hist now (modelName ai_model ++ "助手".data) answer

/-- `process_question`: build the QA prompt, call the selected provider once,
and hand the answer (or the literal error message) to `display_answer`.
Returns the transcript afterwards and the raw HTTP requests issued. -/
def process_question (content question : List Char) (ai_model : AIModel)
    (kimi_api_key : List Char) (oracle : Oracle) (hist : List ChatTurn) (now : List Char) :
    List ChatTurn × List HttpRequest :=
  let prompt := qa_prompt content question
  match ai_model with
  | .deepseek =>
    match oracle.deepseek with
    | .ok out => (display_answer hist now (pyStrip out) .deepseek, [])
    | .error msg =>
      (display_answer hist now (modelName .deepseek ++ "回答失败: ".data ++ msg) .deepseek, [])
  | .kimi =>
    let req := kimi_chat_request kimi_api_key chat_system_prompt prompt 1000
    match oracle.kimi with
    | .ok j =>
      match parse_kimi_response j with
      | some out => (display_answer hist now (pyStrip out) .kimi, [req])
      | none =>
        (display_answer hist now (modelName .kimi ++ "回答失败: KeyError".data) .kimi, [req])
    | .error .timeout =>
      (display_answer hist now (modelName .kimi ++ " API调用超时".data) .kimi, [req])
    | .error (.requestErr m) =>
      (display_answer hist now (modelName .kimi ++ " API请求失败: ".data ++ m) .kimi, [req])
    | .error (.otherErr m) =>
      (display_answer hist now (modelName .kimi ++ "回答失败: ".data ++ m) .kimi, [req])

/-! ## Browser-automation fallback chain
(`open_mindmap_generator` / `upload_to_xmind` / `fallback_mindmap_generation`) -/

/-- Environment of one publish attempt: which capabilities are present and
which runtime steps would succeed. -/
structure XmindEnv where
  /-- `self.generated_markdown` is non-empty. -/
  artifactPresent : Bool
  /-- writing the temp `.md` file succeeds. -/
  tempWriteOk : Bool
  /-- `self.selenium_available`. -/
  seleniumAvailable : Bool
  /-- `chromedriver.exe` found (cwd or project dir). -/
  chromedriverFound : Bool
  /-- `webdriver.Chrome(...)` / `driver.get(...)` succeed. -/
  driverStartOk : Bool
  /-- step 1: `find_element(By.XPATH, xpath1)` finds the upload button. -/
  step1Found : Bool
  /-- step 1: the found element `is_displayed() and is_enabled()` and clicks. -/
  step1Clickable : Bool
  /-- step 2: `find_element(By.XPATH, xpath2)` finds the file-input area. -/
  step2Found : Bool
  /-- step 2: the found element `is_displayed() and is_enabled()` and clicks. -/
  step2Clickable : Bool
  /-- `self.pyperclip_available`. -/
  pyperclipAvailable : Bool
  /-- reading the temp file back and `pyperclip.copy` succeed. -/
  clipboardCopyOk : Bool
deriving DecidableEq

/-- Terminal outcome of one publish attempt (each constructor is one
user-visible dialog / return path; there is no "exception escapes"
constructor because every Python path ends in one of these). -/
inductive PublishOutcome where
  /-- `showwarning("警告", "请先生成思维导图大纲内容！")`. -/
  | warnNoContent
  /-- temp-file write failed: `showerror("打开失败", ...)`. -/
  | persistFailed
  /-- clipboard fallback: content copied, site opened (`备用方案`). -/
  | fallbackClipboard
  /-- clipboard unavailable: site opened, manual-upload dialog (`手动操作`). -/
  | fallbackManualOpen
  /-- fallback itself failed; site opened with no dialog. -/
  | fallbackErrorOpen
  /-- DOM step 1 failed: `showwarning("操作失败", "无法找到上传按钮...")`, return. -/
  | manualPromptStep1
  /-- DOM step 2 failed: `showwarning("操作失败", "无法激活文件输入区域...")`, return. -/
  | manualPromptStep2
  /-- both DOM steps succeeded; `upload_to_xmind` runs to the end. -/
  | automatedDone
deriving DecidableEq

/-- `fallback_mindmap_generation`: copy to clipboard and open the site, or just
open the site, with its own catch-all. -/
def fallback_mindmap_generation (env : XmindEnv) : PublishOutcome :=
  if env.pyperclipAvailable then
    if env.clipboardCopyOk then .fallbackClipboard else .fallbackErrorOpen
  else .fallbackManualOpen

/-- `upload_to_xmind` (worker thread): locate chromedriver, start the browser,
then the two fixed DOM lookup steps.  A missing driver or a browser-start
failure falls back to `fallback_mindmap_generation`; a failed DOM step shows a
manual-operation warning and returns. -/
def upload_to_xmind (env : XmindEnv) : PublishOutcome :=
  if env.chromedriverFound = false then fallback_mindmap_generation env
  else if env.driverStartOk = false then fallback_mindmap_generation env
  else if env.step1Found = false ∨ env.step1Clickable = false then .manualPromptStep1
  else if env.step2Found = false ∨ env.step2Clickable = false then .manualPromptStep2
  else .automatedDone

/-- `open_mindmap_generator`: require an artifact, write the temp file, then
either go straight to the fallback (no selenium) or run `upload_to_xmind`. -/
def open_mindmap_generator (env : XmindEnv) : PublishOutcome :=
  if env.artifactPresent = false then .warnNoContent
  else if env.tempWriteOk = false then .persistFailed
  else if env.seleniumAvailable = false then fallback_mindmap_generation env
  else upload_to_xmind env

/-! ## Helper lemmas -/

/-- The element on which `dropWhile` stops does not satisfy the predicate. -/
theorem dropWhile_head_false {α : Type} (p : α → Bool) (l : List α) (c : α) (cs : List α)
    (h : l.dropWhile p = c :: cs) : p c = false := by
  induction l with
  | nil => simp [List.dropWhile] at h
  | cons x xs ih =>
    rw [List.dropWhile_cons] at h
    by_cases hx : p x = true
    · rw [if_pos hx] at h
      exact ih h
    · rw [if_neg hx] at h
      injection h with h1 _
      subst h1
      simpa using hx

/-- The head of a non-empty `pyStrip` result is not whitespace, so a further
left-strip is the identity. -/
theorem dropWhile_pyStrip (l : List Char) : (pyStrip l).dropWhile pyWS = pyStrip l := by
  rcases h : pyStrip l with _ | ⟨a, t⟩
  · simp
  · have hpre : pyStrip l <+: List.dropWhile pyWS l := List.rdropWhile_prefix pyWS _
    rw [h] at hpre
    obtain ⟨s, hs⟩ := hpre
    have ha : pyWS a = false :=
      dropWhile_head_false pyWS l a (t ++ s) (by rw [← hs]; simp)
    simp [List.dropWhile_cons, ha]

/-- `str.strip()` is idempotent. -/
theorem pyStrip_idem (l : List Char) : pyStrip (pyStrip l) = pyStrip l := by
  show (List.dropWhile pyWS (pyStrip l)).rdropWhile pyWS = pyStrip l
  rw [dropWhile_pyStrip]
  exact List.rdropWhile_idempotent pyWS _

/-- If the pattern is a prefix, the substring test succeeds. -/
theorem pyIn_of_isPrefixOf (pat s : List Char) (h : pat.isPrefixOf s = true) :
    pyIn pat s = true := by
  rw [pyIn, List.any_eq_true]
  exact ⟨s, by simp [List.mem_tails], h⟩

/-- Unfolding `pyIn` over a cons cell. -/
theorem pyIn_cons (pat : List Char) (x : Char) (m : List Char) :
    pyIn pat (x :: m) = (pat.isPrefixOf (x :: m) || pyIn pat m) := by
  simp [pyIn, List.tails_cons]

/-- A pattern occurring literally between two other pieces is found by `in`. -/
theorem pyIn_append (pat a b : List Char) : pyIn pat (a ++ pat ++ b) = true := by
  induction a with
  | nil =>
    apply pyIn_of_isPrefixOf
    rw [List.isPrefixOf_iff_prefix]
    simp [List.prefix_append pat b]
  | cons x a ih =>
    have hx : (x :: a) ++ pat ++ b = x :: (a ++ pat ++ b) := by simp
    rw [hx, pyIn_cons, ih, Bool.or_true]

/-- `display_answer` always appends exactly one turn. -/
theorem display_answer_shape (hist : List ChatTurn) (now answer : List Char) (m : AIModel) :
    ∃ e : ChatTurn, display_answer hist now answer m = hist ++ [e] := by
  unfold display_answer add_to_chat_history
  split
  · exact ⟨_, rfl⟩
  · exact ⟨_, rfl⟩

/-! ## Claim C1 -/

/-- C1 counterexample: with the temp file written, the automation capability
fully available and every DOM lookup failing, the publish operation ends in
the manual-operation warning — not in `FallbackClipboard`, although a
clipboard capability is present. -/
theorem c1_counterexample :
    open_mindmap_generator
        ⟨true, true, true, true, true, false, false, false, false, true, true⟩ =
        .manualPromptStep1 ∧
      PublishOutcome.manualPromptStep1 ≠ .fallbackClipboard := by
  decide

/-- C1 (amended): when every DOM lookup fails, no failure reaches the caller,
but the clipboard fallback only runs when the automation capability itself is
unavailable (selenium missing, chromedriver missing, or browser start
failure); when the automated session did start, a failed DOM lookup ends in a
manual-operation warning instead. -/
theorem c1_dom_failure_fallback (env : XmindEnv)
    (hart : env.artifactPresent = true) (htmp : env.tempWriteOk = true)
    (hs1 : env.step1Found = false) :
    (env.seleniumAvailable = true → env.chromedriverFound = true →
        env.driverStartOk = true →
        open_mindmap_generator env = .manualPromptStep1) ∧
    ((env.seleniumAvailable = false ∨ env.chromedriverFound = false ∨
        env.driverStartOk = false) →
      (env.pyperclipAvailable = true → env.clipboardCopyOk = true →
          open_mindmap_generator env = .fallbackClipboard) ∧
      (env.pyperclipAvailable = false →
          open_mindmap_generator env = .fallbackManualOpen)) := by
  obtain ⟨a, t, sel, cd, ds, s1, s1c, s2, s2c, pc, cb⟩ := env
  simp only at hart htmp hs1
  subst hart htmp hs1
  constructor
  · intro h1 h2 h3
    simp only at h1 h2 h3
    subst h1 h2 h3
    simp [open_mindmap_generator, upload_to_xmind]
  · intro hun
    constructor
    · intro hp hc
      simp only at hp hc
      subst hp hc
      rcases hun with h | h | h <;> simp only at h <;> subst h <;>
        simp [open_mindmap_generator, upload_to_xmind, fallback_mindmap_generation]
    · intro hp
      simp only at hp
      subst hp
      rcases hun with h | h | h <;> simp only at h <;> subst h <;>
        simp [open_mindmap_generator, upload_to_xmind, fallback_mindmap_generation]

/-- C1 witness: a run with selenium unavailable, clipboard available and all
DOM lookups failing ends in `FallbackClipboard`. -/
theorem c1_witness :
    open_mindmap_generator
        ⟨true, true, false, true, true, false, false, false, false, true, true⟩ =
      .fallbackClipboard :=
  ((c1_dom_failure_fallback
      ⟨true, true, false, true, true, false, false, false, false, true, true⟩
      rfl rfl rfl).2 (Or.inl rfl)).1 rfl rfl

/-! ## Claim C3 -/

/-- Any `generate_content` call either leaves the session untouched or ends in
`success`. -/
theorem generate_content_session_cases (st : GenSession) (cfg : GenConfig) (oracle : Oracle) :
    (generate_content st cfg oracle).session = st ∨
      (generate_content st cfg oracle).outcome = .success := by
  unfold generate_content
  split
  · exact .inl rfl
  · split
    · exact .inl rfl
    · split
      · exact .inl rfl
      · split
        · split
          · exact .inr rfl
          · exact .inl rfl
        · split
          · split
            · exact .inr rfl
            · exact .inl rfl
          · exact .inl rfl
          · exact .inl rfl
          · exact .inl rfl

/-- C3 (confirmed): whenever a generation call does not succeed (timeout,
request failure, any other exception, or a pre-flight validation failure), the
session — in particular the current artifact `generated_markdown` — is left
exactly as it was; it is replaced only by a successful call. -/
theorem c3_artifact_unchanged_on_failure (st : GenSession) (cfg : GenConfig) (oracle : Oracle)
    (h : (generate_content st cfg oracle).outcome ≠ .success) :
    (generate_content st cfg oracle).session = st :=
  (generate_content_session_cases st cfg oracle).resolve_right h

/-- C3 witness: a Kimi call that times out leaves the prior artifact in place. -/
theorem c3_witness :
    (generate_content ⟨"hi".data, "old artifact".data⟩
        ⟨.mindmap, "中文".data, .kimi, 3, "10-15".data, ".txt".data, false, false,
          some "k".data⟩
        ⟨.ok [], .error .timeout⟩).session = ⟨"hi".data, "old artifact".data⟩ :=
  c3_artifact_unchanged_on_failure _ _ _ (by decide)

/-! ## Claim C5 -/

/-- C5 (confirmed): with no document loaded, `generate_content` always ends in
the no-document warning, leaves the session unchanged, calls no provider and
issues no HTTP request — it returns before any prompt is built. -/
theorem c5_generate_no_document (st : GenSession) (cfg : GenConfig) (oracle : Oracle)
    (h : st.current_file_content = []) :
    generate_content st cfg oracle = ⟨st, .warnNoFile, false, []⟩ := by
  unfold generate_content
  rw [if_pos h]

/-- C5 witness at a concrete empty-document session. -/
theorem c5_witness :
    generate_content ⟨[], "old".data⟩
        ⟨.mindmap, "中文".data, .deepseek, 3, "10-15".data, ".txt".data, true, true, none⟩
        ⟨.ok "x".data, .error .timeout⟩ =
      ⟨⟨[], "old".data⟩, .warnNoFile, false, []⟩ :=
  c5_generate_no_document _ _ _ rfl

/-! ## Claim C4 -/

/-- The final empty-after-strip check of `extract_file_content` only lets
self-stripped, non-empty text through. -/
theorem strip_check_ok (x s : List Char)
    (h : (if pyStrip x = [] then (.error .valueErrorEmpty : Except PyExc (List Char))
          else .ok (pyStrip x)) = .ok s) :
    pyStrip s = s ∧ s ≠ [] := by
  split at h
  · cases h
  · rename_i hc
    injection h with h'
    subst h'
    exact ⟨pyStrip_idem x, hc⟩

/-- C4 (confirmed): whenever `extract_file_content` returns text, that text is
its own strip (no leading/trailing whitespace) and non-empty — equivalently,
non-empty after trimming; every failure is one of the documented `PyExc`
kinds by totality of the embedding. -/
theorem c4_extract_nonempty_trimmed (env : ExtractEnv) (s : List Char)
    (h : extract_file_content env = .ok s) : pyStrip s = s ∧ s ≠ [] := by
  unfold extract_file_content at h
  rcases hdisp : extract_dispatch env with e | c
  · rw [hdisp] at h
    cases e
    · exact strip_check_ok (env.gbkDecodeIgnore env.bytes) s h
    · exact Except.noConfusion h
    · exact Except.noConfusion h
    · exact Except.noConfusion h
  · rw [hdisp] at h
    exact strip_check_ok c s h

/-- C4 witness: extracting a concrete `.txt` file containing `Hello world`. -/
theorem c4_witness :
    pyStrip "Hello world".data = "Hello world".data ∧ "Hello world".data ≠ [] :=
  c4_extract_nonempty_trimmed
    ⟨".txt".data, [72, 101, 108, 108, 111, 32, 119, 111, 114, 108, 100],
      false, [], false, [], fun _ => []⟩
    "Hello world".data (by rfl)

/-! ## Claim C8 -/

/-- A read with `errors='ignore'` never raises: it returns the surviving
characters. -/
theorem pyOpenRead_ignore (bytes : List Nat) :
    pyOpenRead bytes true = .ok (utf8DecodeIgnore bytes).1 := rfl

/-- The extension dispatch never raises `UnicodeDecodeError`: every text read
it performs uses `errors='ignore'`. -/
theorem extract_dispatch_ne_decode (env : ExtractEnv) :
    extract_dispatch env ≠ .error .unicodeDecodeError := by
  show (if pyLower env.ext = ".txt".data ∨ pyLower env.ext = ".md".data then
          pyOpenRead env.bytes true
        else if pyLower env.ext = ".docx".data then
          if env.docxAvailable then .ok (List.intercalate "\n".data env.docxParas)
          else .error .importErrorDocx
        else if pyLower env.ext = ".pdf".data then
          if env.pdfAvailable then
            .ok (env.pdfPages.foldl (fun acc page => acc ++ page ++ "\n".data) [])
          else .error .importErrorPdf
        else pyOpenRead env.bytes true) ≠ .error .unicodeDecodeError
  by_cases h1 : pyLower env.ext = ".txt".data ∨ pyLower env.ext = ".md".data
  · rw [if_pos h1, pyOpenRead_ignore]
    simp
  · rw [if_neg h1]
    by_cases h2 : pyLower env.ext = ".docx".data
    · rw [if_pos h2]
      cases hd : env.docxAvailable <;> simp [hd]
    · rw [if_neg h2]
      by_cases h3 : pyLower env.ext = ".pdf".data
      · rw [if_pos h3]
        cases hp : env.pdfAvailable <;> simp [hp]
      · rw [if_neg h3, pyOpenRead_ignore]
        simp

/-- C8 (amended): all plain-text reads decode UTF-8 with undecodable bytes
silently dropped (`errors='ignore'`), so decoding never fails: extraction
never reports a decode error, and the GBK fallback handler is unreachable —
the result does not depend on the GBK decoder at all.  A file with no
decodable non-whitespace content fails with the empty-content error instead. -/
theorem c8_no_decode_failure (env : ExtractEnv) :
    extract_file_content env ≠ .error .unicodeDecodeError ∧
      ∀ g, extract_file_content { env with gbkDecodeIgnore := g } =
        extract_file_content env := by
  have hne := extract_dispatch_ne_decode env
  constructor
  · unfold extract_file_content
    rcases hdisp : extract_dispatch env with e | c
    · rw [hdisp] at hne
      cases e
      · exact absurd rfl hne
      · simp
      · simp
      · simp
    · simp only []
      split <;> simp
  · intro g
    have hsame : extract_dispatch { env with gbkDecodeIgnore := g } =
        extract_dispatch env := rfl
    unfold extract_file_content
    rw [hsame]
    rcases hdisp : extract_dispatch env with e | c
    · rw [hdisp] at hne
      cases e
      · exact absurd rfl hne
      · rfl
      · rfl
      · rfl
    · rfl

/-- C8 counterexample: the bytes `C4 E3` (the GBK encoding of `你`, not valid
UTF-8) do not make extraction report a decode failure, nor do they reach the
GBK fallback (which would return `你`): the undecodable bytes are dropped and
extraction fails with the empty-content error. -/
theorem c8_counterexample :
    extract_file_content
        ⟨".txt".data, [0xC4, 0xE3], false, [], false, [], fun _ => "你".data⟩ =
        .error .valueErrorEmpty ∧
      (Except.error PyExc.valueErrorEmpty : Except PyExc (List Char)) ≠
        .error .unicodeDecodeError ∧
      (Except.error PyExc.valueErrorEmpty : Except PyExc (List Char)) ≠ .ok "你".data :=
  ⟨by rfl, by simp, by simp⟩

/-- C8 witness: a concrete run of the amended statement, at the same
undecodable bytes with two different GBK decoders. -/
theorem c8_witness :
    extract_file_content
        ⟨".md".data, [0xFF, 104, 105], false, [], false, [], fun _ => []⟩ ≠
        .error .unicodeDecodeError ∧
      extract_file_content
          ⟨".md".data, [0xFF, 104, 105], false, [], false, [], fun _ => "x".data⟩ =
        extract_file_content
          ⟨".md".data, [0xFF, 104, 105], false, [], false, [], fun _ => []⟩ :=
  ⟨(c8_no_decode_failure
      ⟨".md".data, [0xFF, 104, 105], false, [], false, [], fun _ => []⟩).1,
   (c8_no_decode_failure
      ⟨".md".data, [0xFF, 104, 105], false, [], false, [], fun _ => []⟩).2
     (fun _ => "x".data)⟩

/-! ## Claim C9 -/

/-- C9 (confirmed): a file whose (lower-cased) extension is none of `.txt`,
`.md`, `.docx`, `.pdf` is not rejected as unsupported: it is read as plain
text with undecodable bytes dropped, and extraction fails (with the
empty-content error) only if the surviving text is empty after trimming. -/
theorem c9_unknown_extension_plain_text (env : ExtractEnv)
    (h1 : pyLower env.ext ≠ ".txt".data) (h2 : pyLower env.ext ≠ ".md".data)
    (h3 : pyLower env.ext ≠ ".docx".data) (h4 : pyLower env.ext ≠ ".pdf".data) :
    extract_file_content env =
      if pyStrip (utf8DecodeIgnore env.bytes).1 = [] then .error .valueErrorEmpty
      else .ok (pyStrip (utf8DecodeIgnore env.bytes).1) := by
  have hd : extract_dispatch env = .ok (utf8DecodeIgnore env.bytes).1 := by
    unfold extract_dispatch
    rw [if_neg (by simp [h1, h2]), if_neg h3, if_neg h4]
    rfl
  unfold extract_file_content
  rw [hd]

/-- C9 witness: a `.xyz` file containing `hi` extracts as plain text. -/
theorem c9_witness :
    extract_file_content ⟨".xyz".data, [104, 105], false, [], false, [], fun _ => []⟩ =
      if pyStrip (utf8DecodeIgnore [104, 105]).1 = [] then .error .valueErrorEmpty
      else .ok (pyStrip (utf8DecodeIgnore [104, 105]).1) :=
  c9_unknown_extension_plain_text
    ⟨".xyz".data, [104, 105], false, [], false, [], fun _ => []⟩
    (by decide) (by decide) (by decide) (by decide)

/-! ## Claim C2 -/

/-- Everything the mind-map prompt places before the document excerpt. -/
def mm_before_excerpt (file_ext : List Char) (depth : Nat) (language : List Char) :
    List Char :=
  "请将以下`".data ++ file_ext ++
  "`文件的内容，分析并整理成一个层次清晰、逻辑完整的思维导图大纲。\n**要求:**\n1. 输出严格的 Markdown 格式，使用 `#` 表示一级主题，`##` 表示二级主题，依此类推。\n2. 总共设计大约 ".data ++
  (Nat.repr depth).data ++
  " 个层级。\n3. 大纲语言使用".data ++ language ++
  "。\n4. 从文件中提炼核心主题、关键概念、重要论点和支撑细节。\n5. 结构要符合思维导图的放射性特点，不要写成纯列表。\n6. 只输出Markdown内容，不要有任何解释性前缀或后缀。\n**文件内容摘要 (前500字符):**\n".data

/-- Everything the mind-map prompt places after the ellipsis marker. -/
def mm_after_excerpt : List Char :=
  "\n**请开始输出Markdown格式的思维导图大纲:**".data

/-- Everything the PPT prompt places before the document excerpt. -/
def ppt_before_excerpt (file_ext pages_range language : List Char) : List Char :=
  "请将以下`".data ++ file_ext ++
  "`文件的内容，分析并整理成一个适合制作PPT演示文稿的详细大纲。\n**要求:**\n1. 输出严格的 Markdown 格式。\n2. 设计一个完整的PPT结构，包含封面页、目录页、内容页和结束页。\n3. 内容页数量控制在".data ++
  pages_range ++
  "页左右。\n4. 每页PPT使用`##`作为标题，然后列出该页的要点内容。\n5. 每个要点使用`-`或`*`符号表示。\n6. 大纲语言使用".data ++
  language ++
  "。\n7. 从文件中提炼核心内容，确保逻辑连贯、重点突出。\n8. 只输出Markdown内容，不要有任何解释性前缀或后缀。\n**建议PPT结构示例:**\n## 封面页\n- 主标题: [根据内容拟定]\n- 副标题: [可选]\n- 演讲者/日期: [可选]\n## 目录页\n1. 主要内容一\n2. 主要内容二\n3. 主要内容三\n## 内容页1: [具体标题]\n- 要点1\n- 要点2\n- 要点3\n## 内容页2: [具体标题]\n- 要点1\n- 要点2\n## 结束页\n- 总结/致谢/联系方式\n**文件内容摘要 (前500字符):**\n".data

/-- Everything the PPT prompt places after the ellipsis marker. -/
def ppt_after_excerpt : List Char :=
  "\n**请开始输出Markdown格式的PPT大纲:**".data

/-- Everything the QA prompt places before the document excerpt. -/
def qa_before_excerpt : List Char :=
  "请基于以下文件内容回答用户的问题。如果问题与文件内容无关，请礼貌地说明。\n文件内容摘要（前1500字符）:\n".data

/-- Everything the QA prompt places after the (possibly absent) ellipsis. -/
def qa_after_excerpt (question : List Char) : List Char :=
  "\n用户问题: ".data ++ question ++
  "\n请提供准确、简洁的回答，并尽可能引用文件中的具体内容。".data

set_option maxRecDepth 16000

/-- C2 counterexample: for a 5-character document (well under the 500-character
budget, containing no dots), the rendered mind-map prompt still contains the
ellipsis marker — so the marker does not appear "exactly when the document was
actually truncated". -/
theorem c2_counterexample :
    "Hello".data.length ≤ 500 ∧
      pyIn "...".data (mindmap_prompt ".txt".data 3 "中文".data "Hello".data) = true := by
  constructor
  · decide
  · decide

/-- C2 (amended): each prompt builder includes exactly the first
budget-many characters of the document (500 for the two outline prompts, 1500
for QA), never more; the QA prompt appends the ellipsis marker exactly when
the document exceeds its budget, while the two outline prompts append the
marker unconditionally, even for short documents. -/
theorem c2_prompt_truncation (file_ext language content question : List Char)
    (depth : Nat) (pages_range : List Char) :
    (mindmap_prompt file_ext depth language content =
        mm_before_excerpt file_ext depth language ++ content.take 500 ++ "...".data ++
          mm_after_excerpt ∧
      (content.take 500).length ≤ 500) ∧
    (ppt_prompt file_ext pages_range language content =
        ppt_before_excerpt file_ext pages_range language ++ content.take 500 ++
          "...".data ++ ppt_after_excerpt ∧
      (content.take 500).length ≤ 500) ∧
    ((content.length ≤ 1500 →
        qa_prompt content question =
          qa_before_excerpt ++ content ++ qa_after_excerpt question) ∧
      (1500 < content.length →
        qa_prompt content question =
          qa_before_excerpt ++ content.take 1500 ++ "...".data ++
            qa_after_excerpt question ∧
          (content.take 1500).length = 1500)) := by
  refine ⟨⟨?_, ?_⟩, ⟨?_, ?_⟩, ?_, ?_⟩
  · simp [mindmap_prompt, mm_before_excerpt, mm_after_excerpt, List.append_assoc]
  · rw [List.length_take]
    exact Nat.min_le_left _ _
  · simp [ppt_prompt, ppt_before_excerpt, ppt_after_excerpt, List.append_assoc]
  · rw [List.length_take]
    exact Nat.min_le_left _ _
  · intro h
    have hnot : ¬(1500 < content.length) := by omega
    simp [qa_prompt, qa_before_excerpt, qa_after_excerpt, hnot,
      List.take_of_length_le h, List.append_assoc]
  · intro h
    constructor
    · simp [qa_prompt, qa_before_excerpt, qa_after_excerpt, h, List.append_assoc]
    · rw [List.length_take]
      omega

/-- C2 witness: the QA prompt for a short document contains the whole document
and no ellipsis; for a 1501-character document it contains exactly the
1500-character prefix followed by the ellipsis. -/
theorem c2_witness :
    qa_prompt "hi".data "q".data =
        qa_before_excerpt ++ "hi".data ++ qa_after_excerpt "q".data ∧
      qa_prompt (List.replicate 1501 'a') "q".data =
        qa_before_excerpt ++ (List.replicate 1501 'a').take 1500 ++ "...".data ++
          qa_after_excerpt "q".data :=
  ⟨(c2_prompt_truncation ".txt".data "中文".data "hi".data "q".data 3 "5-8".data).2.2.1
      (by decide),
   ((c2_prompt_truncation ".txt".data "中文".data (List.replicate 1501 'a') "q".data 3
        "5-8".data).2.2.2 (by simp)).1⟩

/-! ## Claim C6 -/

/-- Reduction of `generate_content` on the Kimi path once validation passes. -/
theorem generate_content_kimi (st : GenSession) (cfg : GenConfig) (oracle : Oracle)
    (key : List Char) (hm : cfg.ai_model = .kimi) (hk : cfg.kimi_api_key = some key)
    (hc : st.current_file_content ≠ []) :
    generate_content st cfg oracle =
      (let req := kimi_chat_request key (gen_system_prompt cfg.output_type)
        (gen_user_prompt cfg st.current_file_content) 2000
      match oracle.kimi with
      | .ok j =>
        match parse_kimi_response j with
        | some out =>
          ⟨{ st with generated_markdown := pyStrip out }, .success, true, [req]⟩
        | none => ⟨st, .failOther (modelName .kimi ++ "调用失败: KeyError".data), true, [req]⟩
      | .error .timeout => ⟨st, .failTimeout, true, [req]⟩
      | .error (.requestErr m) =>
        ⟨st, .failRequest (modelName .kimi ++ " API请求失败: ".data ++ m), true, [req]⟩
      | .error (.otherErr m) =>
        ⟨st, .failOther (modelName .kimi ++ "调用失败: ".data ++ m), true, [req]⟩) := by
  unfold generate_content
  rw [if_neg hc, if_neg (by simp [hm]), if_neg (by simp [hk]), hm, hk]
  rfl

/-- C6 (confirmed): both call sites routed to the raw-HTTP provider issue
exactly one POST — of a JSON body holding exactly the fields `model`,
`messages` (role/content pairs), `max_tokens`, `temperature` and
`stream:false` — with a bearer `Authorization` header, to the fixed endpoint,
with a 60-second timeout; and the answer text is parsed from
`choices[0].message.content` of the response JSON. -/
theorem c6_raw_http_contract (st : GenSession) (cfg : GenConfig) (oracle : Oracle)
    (key content question now : List Char) (hist : List ChatTurn) :
    (∀ (k s u : List Char) (mt : Nat),
      (kimi_chat_request k s u mt).method = "POST".data ∧
      (kimi_chat_request k s u mt).url = kimi_api_url ∧
      (kimi_chat_request k s u mt).timeoutSeconds = 60 ∧
      (kimi_chat_request k s u mt).headers =
        [("Content-Type".data, "application/json".data),
         ("Authorization".data, "Bearer ".data ++ k)] ∧
      jkeys (kimi_chat_request k s u mt).body =
        ["model".data, "messages".data, "max_tokens".data, "temperature".data,
         "stream".data] ∧
      ∃ fields, (kimi_chat_request k s u mt).body = .obj fields ∧
        jlookup fields "stream".data = some (.b false) ∧
        jlookup fields "max_tokens".data = some (.n mt) ∧
        jlookup fields "messages".data = some (.arr
          [.obj [("role".data, .s "system".data), ("content".data, .s s)],
           .obj [("role".data, .s "user".data), ("content".data, .s u)]])) ∧
    (cfg.ai_model = .kimi → cfg.kimi_api_key = some key →
      st.current_file_content ≠ [] →
      (generate_content st cfg oracle).httpRequests =
        [kimi_chat_request key (gen_system_prompt cfg.output_type)
          (gen_user_prompt cfg st.current_file_content) 2000]) ∧
    ((process_question content question .kimi key oracle hist now).2 =
      [kimi_chat_request key chat_system_prompt (qa_prompt content question) 1000]) ∧
    (∀ (a : List Char) (rest : List JVal) (extra : List (List Char × JVal)),
      parse_kimi_response (.obj (("choices".data,
          .arr (.obj [("message".data, .obj [("content".data, .s a)])] :: rest)) :: extra)) =
        some a) ∧
    (∀ j a, oracle.kimi = .ok j → parse_kimi_response j = some a →
      cfg.ai_model = .kimi → cfg.kimi_api_key = some key →
      st.current_file_content ≠ [] →
      (generate_content st cfg oracle).outcome = .success ∧
      (generate_content st cfg oracle).session.generated_markdown = pyStrip a) := by
  refine ⟨?_, ?_, ?_, ?_, ?_⟩
  · intro k s u mt
    exact ⟨rfl, rfl, rfl, rfl, rfl, _, rfl, rfl, rfl, rfl⟩
  · intro hm hk hc
    rw [generate_content_kimi st cfg oracle key hm hk hc]
    rcases o : oracle.kimi with e | j
    · cases e <;> rfl
    · dsimp only
      rcases p : parse_kimi_response j with _ | out <;> rfl
  · unfold process_question
    rcases o : oracle.kimi with e | j
    · cases e <;> rfl
    · dsimp only
      rcases p : parse_kimi_response j with _ | out <;> rfl
  · intro a rest extra
    rfl
  · intro j a ho hp hm hk hc
    rw [generate_content_kimi st cfg oracle key hm hk hc, ho]
    dsimp only
    rw [hp]
    exact ⟨rfl, rfl⟩

/-- C6 witness: both pipelines, run concretely on the Kimi provider, issue
exactly one HTTP request. -/
theorem c6_witness :
    (generate_content ⟨"hi".data, []⟩
        ⟨.mindmap, "中文".data, .kimi, 3, "10-15".data, ".txt".data, false, false,
          some "k".data⟩
        ⟨.ok [], .error .timeout⟩).httpRequests.length = 1 ∧
      (process_question "hi".data "q".data .kimi "k".data ⟨.ok [], .error .timeout⟩
        [] "00:00:00".data).2.length = 1 := by
  constructor
  · rw [(c6_raw_http_contract ⟨"hi".data, []⟩
      ⟨.mindmap, "中文".data, .kimi, 3, "10-15".data, ".txt".data, false, false,
        some "k".data⟩
      ⟨.ok [], .error .timeout⟩ "k".data "hi".data "q".data "00:00:00".data []).2.1
      rfl rfl (by decide)]
    rfl
  · rw [(c6_raw_http_contract ⟨"hi".data, []⟩
      ⟨.mindmap, "中文".data, .kimi, 3, "10-15".data, ".txt".data, false, false,
        some "k".data⟩
      ⟨.ok [], .error .timeout⟩ "k".data "hi".data "q".data "00:00:00".data []).2.2.1]
    rfl

/-! ## Claim C7 -/

/-- `display_answer` with a marker-bearing message appends a `系统` turn. -/
theorem display_answer_system (hist : List ChatTurn) (now answer : List Char) (m : AIModel)
    (h : (pyIn "API调用超时".data answer || pyIn "API请求失败".data answer ||
        pyIn "回答失败".data answer) = true) :
    display_answer hist now answer m = hist ++ [⟨"系统".data, answer, now⟩] := by
  unfold display_answer add_to_chat_history
  rw [if_pos h]

/-- `display_answer` with a marker-free message appends an assistant turn. -/
theorem display_answer_assistant (hist : List ChatTurn) (now answer : List Char) (m : AIModel)
    (h1 : pyIn "API调用超时".data answer = false)
    (h2 : pyIn "API请求失败".data answer = false)
    (h3 : pyIn "回答失败".data answer = false) :
    display_answer hist now answer m =
      hist ++ [⟨modelName m ++ "助手".data, answer, now⟩] := by
  unfold display_answer add_to_chat_history
  rw [if_neg (by simp [h1, h2, h3])]

/-- C7 counterexample: a *successful* provider answer that happens to contain
the substring `回答失败` is appended tagged `系统`, not as an assistant turn —
so "on success the answer is appended tagged as an assistant message" fails. -/
theorem c7_counterexample :
    (process_question "hi".data "q".data .deepseek "k".data
        ⟨.ok "回答失败".data, .error .timeout⟩ [] "00:00:00".data).1 =
      [⟨"系统".data, "回答失败".data, "00:00:00".data⟩] ∧
      ("系统".data : List Char) ≠ "DeepSeek助手".data := by
  exact ⟨by rfl, by decide⟩

/-- C7 (amended): every chat-pipeline call, on either provider, appends
exactly one entry for the outcome and never mutates earlier entries; every
provider failure (timeout, request failure, backend/SDK failure, and a
malformed Kimi response body) is appended as a `系统` turn carrying the
literal error message; a successful answer is appended as an assistant turn
provided its text does not contain one of the three failure-marker substrings
(outcome classification is by substring match). -/
theorem c7_transcript_outcome (content question key now : List Char) (m : AIModel)
    (oracle : Oracle) (hist : List ChatTurn) :
    (∃ e : ChatTurn,
        (process_question content question m key oracle hist now).1 = hist ++ [e]) ∧
    (m = .kimi → oracle.kimi = .error .timeout →
        (process_question content question m key oracle hist now).1 =
          hist ++ [⟨"系统".data, "Kimi API调用超时".data, now⟩]) ∧
    (∀ emsg, m = .kimi → oracle.kimi = .error (.requestErr emsg) →
        (process_question content question m key oracle hist now).1 =
          hist ++ [⟨"系统".data, "Kimi API请求失败: ".data ++ emsg, now⟩]) ∧
    (∀ emsg, m = .deepseek → oracle.deepseek = .error emsg →
        (process_question content question m key oracle hist now).1 =
          hist ++ [⟨"系统".data, "DeepSeek回答失败: ".data ++ emsg, now⟩]) ∧
    (∀ ans, m = .deepseek → oracle.deepseek = .ok ans →
        pyIn "API调用超时".data (pyStrip ans) = false →
        pyIn "API请求失败".data (pyStrip ans) = false →
        pyIn "回答失败".data (pyStrip ans) = false →
        (process_question content question m key oracle hist now).1 =
          hist ++ [⟨"DeepSeek助手".data, pyStrip ans, now⟩]) ∧
    (∀ emsg, m = .kimi → oracle.kimi = .error (.otherErr emsg) →
        (process_question content question m key oracle hist now).1 =
          hist ++ [⟨"系统".data, "Kimi回答失败: ".data ++ emsg, now⟩]) ∧
    (∀ j, m = .kimi → oracle.kimi = .ok j → parse_kimi_response j = none →
        (process_question content question m key oracle hist now).1 =
          hist ++ [⟨"系统".data, "Kimi回答失败: KeyError".data, now⟩]) ∧
    (∀ j out, m = .kimi → oracle.kimi = .ok j → parse_kimi_response j = some out →
        pyIn "API调用超时".data (pyStrip out) = false →
        pyIn "API请求失败".data (pyStrip out) = false →
        pyIn "回答失败".data (pyStrip out) = false →
        (process_question content question m key oracle hist now).1 =
          hist ++ [⟨"Kimi助手".data, pyStrip out, now⟩]) := by
  obtain ⟨ds, km⟩ := oracle
  refine ⟨?_, ?_, ?_, ?_, ?_, ?_, ?_, ?_⟩
  · cases m
    · rcases ds with msg | out
      · exact display_answer_shape hist now _ _
      · exact display_answer_shape hist now _ _
    · rcases km with e | j
      · cases e
        · exact display_answer_shape hist now (modelName .kimi ++ " API调用超时".data) .kimi
        · rename_i msg
          exact display_answer_shape hist now
            (modelName .kimi ++ " API请求失败: ".data ++ msg) .kimi
        · rename_i msg
          exact display_answer_shape hist now
            (modelName .kimi ++ "回答失败: ".data ++ msg) .kimi
      · dsimp only [process_question]
        rcases p : parse_kimi_response j with _ | out
        · exact display_answer_shape hist now (modelName .kimi ++ "回答失败: KeyError".data) .kimi
        · exact display_answer_shape hist now (pyStrip out) .kimi
  · intro hm ht
    subst hm
    dsimp only at ht
    subst ht
    exact display_answer_system hist now (modelName .kimi ++ " API调用超时".data) .kimi
      (by decide)
  · intro emsg hm ht
    subst hm
    dsimp only at ht
    subst ht
    have h2 : pyIn "API请求失败".data
        (modelName .kimi ++ " API请求失败: ".data ++ emsg) = true :=
      pyIn_append "API请求失败".data "Kimi ".data (": ".data ++ emsg)
    exact display_answer_system hist now
      (modelName .kimi ++ " API请求失败: ".data ++ emsg) .kimi (by rw [h2]; simp)
  · intro emsg hm ht
    subst hm
    dsimp only at ht
    subst ht
    have h3 : pyIn "回答失败".data
        (modelName .deepseek ++ "回答失败: ".data ++ emsg) = true :=
      pyIn_append "回答失败".data "DeepSeek".data (": ".data ++ emsg)
    exact display_answer_system hist now
      (modelName .deepseek ++ "回答失败: ".data ++ emsg) .deepseek (by rw [h3]; simp)
  · intro ans hm ho h1 h2 h3
    subst hm
    dsimp only at ho
    subst ho
    exact display_answer_assistant hist now (pyStrip ans) .deepseek h1 h2 h3
  · intro emsg hm ht
    subst hm
    dsimp only at ht
    subst ht
    have h3 : pyIn "回答失败".data
        (modelName .kimi ++ "回答失败: ".data ++ emsg) = true :=
      pyIn_append "回答失败".data "Kimi".data (": ".data ++ emsg)
    exact display_answer_system hist now
      (modelName .kimi ++ "回答失败: ".data ++ emsg) .kimi (by rw [h3]; simp)
  · intro j hm ho hp
    subst hm
    dsimp only at ho
    subst ho
    dsimp only [process_question]
    rw [hp]
    exact display_answer_system hist now
      (modelName .kimi ++ "回答失败: KeyError".data) .kimi (by decide)
  · intro j out hm ho hp h1 h2 h3
    subst hm
    dsimp only at ho
    subst ho
    dsimp only [process_question]
    rw [hp]
    exact display_answer_assistant hist now (pyStrip out) .kimi h1 h2 h3

/-- C7 witness: a concrete timed-out Kimi call appends one `系统` turn after an
existing transcript entry, a concrete marker-free DeepSeek success appends one
assistant turn, and a concrete marker-free Kimi success (with a well-formed
response body) appends one assistant turn. -/
theorem c7_witness :
    (process_question "hi".data "q".data .kimi "k".data ⟨.ok [], .error .timeout⟩
        [⟨"你".data, "q0".data, "00:00:00".data⟩] "00:00:01".data).1 =
      [⟨"你".data, "q0".data, "00:00:00".data⟩] ++
        [⟨"系统".data, "Kimi API调用超时".data, "00:00:01".data⟩] ∧
    (process_question "hi".data "q".data .deepseek "k".data
        ⟨.ok "你好".data, .error .timeout⟩ [] "00:00:02".data).1 =
      [] ++ [⟨"DeepSeek助手".data, "你好".data, "00:00:02".data⟩] ∧
    (process_question "hi".data "q".data .kimi "k".data
        ⟨.ok [], .ok (.obj [("choices".data, .arr
          [.obj [("message".data, .obj [("content".data, .s "好的".data)])]])])⟩
        [] "00:00:04".data).1 =
      [] ++ [⟨"Kimi助手".data, pyStrip "好的".data, "00:00:04".data⟩] :=
  ⟨(c7_transcript_outcome "hi".data "q".data "k".data "00:00:01".data .kimi
      ⟨.ok [], .error .timeout⟩ [⟨"你".data, "q0".data, "00:00:00".data⟩]).2.1 rfl rfl,
   (c7_transcript_outcome "hi".data "q".data "k".data "00:00:02".data .deepseek
      ⟨.ok "你好".data, .error .timeout⟩ []).2.2.2.2.1 "你好".data rfl rfl
     (by decide) (by decide) (by decide),
   (c7_transcript_outcome "hi".data "q".data "k".data "00:00:04".data .kimi
      ⟨.ok [], .ok (.obj [("choices".data, .arr
        [.obj [("message".data, .obj [("content".data, .s "好的".data)])]])])⟩
      []).2.2.2.2.2.2.2
     (.obj [("choices".data, .arr
        [.obj [("message".data, .obj [("content".data, .s "好的".data)])]])])
     "好的".data rfl rfl (by rfl) (by decide) (by decide) (by decide)⟩

/-! ## Claim C10 -/

/-- C10 (confirmed): a successful provider answer containing one of the
literal substrings `API调用超时`, `API请求失败`, `回答失败` is recorded in the
transcript tagged as a `系统` (system) message rather than an assistant
message, because the outcome is classified by substring match on the message
text. -/
theorem c10_marker_answer_tagged_system (content question key now : List Char)
    (oracle : Oracle) (hist : List ChatTurn) (ans : List Char)
    (ho : oracle.deepseek = .ok ans)
    (hmark : (pyIn "API调用超时".data (pyStrip ans) ||
        pyIn "API请求失败".data (pyStrip ans) ||
        pyIn "回答失败".data (pyStrip ans)) = true) :
    (process_question content question .deepseek key oracle hist now).1 =
      hist ++ [⟨"系统".data, pyStrip ans, now⟩] := by
  obtain ⟨ds, km⟩ := oracle
  dsimp only at ho
  subst ho
  exact display_answer_system hist now _ _ hmark

/-- C10 witness: the successful answer `这会回答失败` lands in the transcript as
a `系统` turn. -/
theorem c10_witness :
    (process_question "hi".data "q".data .deepseek "k".data
        ⟨.ok "这会回答失败".data, .error .timeout⟩ [] "00:00:03".data).1 =
      [] ++ [⟨"系统".data, pyStrip "这会回答失败".data, "00:00:03".data⟩] :=
  c10_marker_answer_tagged_system "hi".data "q".data "k".data "00:00:03".data
    ⟨.ok "这会回答失败".data, .error .timeout⟩ [] "这会回答失败".data rfl (by decide)
